import Mathlib

/-!
Verification of the incremental synchronization and retrieval core of a
Taiwan-equity RAG system (`tw_stock_analyst`).

The development shallowly embeds the Python sources:

* `vectordb/qdrant_client.py` — fingerprinting (`insert_stock_data`) and the
  filtered similarity search (`StockVectorDB.search`);
* `rag/retriever.py` — `StockRetriever.retrieve` and `format_context`;
* `rag/generator.py` — `StockAnalysisGenerator.generate`;
* `data/fundamentals.py` — `FundamentalFormatter.format_as_text` and
  `calculate_ratios`;
* `data/stock_collector.py` — `TaiwanStockCollector.get_fundamentals`;
* `sync.py` — `check_data_exists`, the per-row technical sync step, the
  per-stock fundamentals step, and the CLI exit-code path.

External collaborators (the Qdrant vector store, the embedding model, the
Ollama chat service, the hashing library) are modelled at their interface
boundary: the store as an explicit list of points with upsert-by-id and
filtered, score-ordered search; the embedding model and similarity scorer as
abstract function parameters; the chat call as an `Except`-valued outcome;
SHA-256 concretely from FIPS 180-4, cross-checked against a standard test
vector. Machine floats are modelled as rationals.
-/

namespace TwStock

/- The Batteries rational-arithmetic primitives are irreducible by default,
which blocks `decide`-style evaluation of concrete arithmetic; restore the
default transparency locally so concrete instances evaluate. -/
attribute [local semireducible] Rat.mul Rat.add Rat.sub Rat.inv

/-! ## SHA-256 (model of Python `hashlib.sha256(...).hexdigest()`)

Modelled from the spec: the repository calls the external `hashlib` library
("compute a cryptographic digest of that string; take a fixed-width prefix of
the digest's hexadecimal representation").  The digest itself is implemented
here from the public FIPS 180-4 definition over `Nat` words reduced mod
`2 ^ 32`, and validated below against the standard `"abc"` test vector. -/

namespace Sha256

/-- 32-bit modulus: every word value is a `Nat` kept below `2 ^ 32`. -/
def M32 : Nat := 4294967296

def add32 (a b : Nat) : Nat := (a + b) % M32

def not32 (a : Nat) : Nat := Nat.xor a (M32 - 1)

def rotr32 (n x : Nat) : Nat :=
  (Nat.lor (Nat.shiftRight x n) (Nat.shiftLeft x (32 - n))) % M32

def shr32 (n x : Nat) : Nat := Nat.shiftRight x n

/-- Round constants: first 32 bits of the fractional parts of the cube roots
of the first 64 primes (FIPS 180-4 §4.2.2), written in decimal. -/
def K : List Nat :=
  [1116352408, 1899447441, 3049323471, 3921009573, 961987163,
   1508970993, 2453635748, 2870763221, 3624381080, 310598401,
   607225278, 1426881987, 1925078388, 2162078206, 2614888103,
   3248222580, 3835390401, 4022224774, 264347078, 604807628,
   770255983, 1249150122, 1555081692, 1996064986, 2554220882,
   2821834349, 2952996808, 3210313671, 3336571891, 3584528711,
   113926993, 338241895, 666307205, 773529912, 1294757372,
   1396182291, 1695183700, 1986661051, 2177026350, 2456956037,
   2730485921, 2820302411, 3259730800, 3345764771, 3516065817,
   3600352804, 4094571909, 275423344, 430227734, 506948616,
   659060556, 883997877, 958139571, 1322822218, 1537002063,
   1747873779, 1955562222, 2024104815, 2227730452, 2361852424,
   2428436474, 2756734187, 3204031479, 3329325298]

/-- Initial hash state (FIPS 180-4 §5.3.3), written in decimal. -/
def H0 : List Nat :=
  [1779033703, 3144134277, 1013904242, 2773480762,
   1359893119, 2600822924, 528734635, 1541459225]

def smallSigma0 (x : Nat) : Nat := Nat.xor (rotr32 7 x) (Nat.xor (rotr32 18 x) (shr32 3 x))

def smallSigma1 (x : Nat) : Nat := Nat.xor (rotr32 17 x) (Nat.xor (rotr32 19 x) (shr32 10 x))

def bigSigma0 (x : Nat) : Nat := Nat.xor (rotr32 2 x) (Nat.xor (rotr32 13 x) (rotr32 22 x))

def bigSigma1 (x : Nat) : Nat := Nat.xor (rotr32 6 x) (Nat.xor (rotr32 11 x) (rotr32 25 x))

def ch (x y z : Nat) : Nat := Nat.xor (Nat.land x y) (Nat.land (not32 x) z)

def maj (x y z : Nat) : Nat := Nat.xor (Nat.land x y) (Nat.xor (Nat.land x z) (Nat.land y z))

/-- Extend the 16 block words to the 64-word message schedule (the fuel
argument counts the 48 remaining words). -/
def extendSchedule : Nat → List Nat → List Nat
  | 0, w => w
  | n + 1, w =>
      let i := w.length
      let next := (smallSigma1 (w.getD (i - 2) 0) + w.getD (i - 7) 0 +
                   smallSigma0 (w.getD (i - 15) 0) + w.getD (i - 16) 0) % M32
      extendSchedule n (w ++ [next])

/-- One compression round on the eight-word working state. -/
def round (st : List Nat) (kw : Nat × Nat) : List Nat :=
  match st with
  | [a, b, c, d, e, f, g, h] =>
      let t1 := (h + bigSigma1 e + ch e f g + kw.1 + kw.2) % M32
      let t2 := (bigSigma0 a + maj a b c) % M32
      [(t1 + t2) % M32, a, b, c, (d + t1) % M32, e, f, g]
  | st => st

/-- Big-endian 32-bit word from four bytes. -/
def wordOfBytes : List Nat → Nat
  | [b0, b1, b2, b3] => b0 * 16777216 + b1 * 65536 + b2 * 256 + b3
  | _ => 0

/-- Split a byte list into big-endian 32-bit words. -/
def bytesToWords : List Nat → List Nat
  | b0 :: b1 :: b2 :: b3 :: rest => wordOfBytes [b0, b1, b2, b3] :: bytesToWords rest
  | _ => []

/-- Compress one 64-byte block into the running state. -/
def compress (h : List Nat) (block : List Nat) : List Nat :=
  let w := extendSchedule 48 (bytesToWords block)
  let st := (K.zip w).foldl round h
  List.zipWith add32 h st

/-- Process the padded message 64 bytes at a time (fuel-structural so that the
kernel can evaluate it). -/
def processBlocksAux : Nat → List Nat → List Nat → List Nat
  | 0, h, _ => h
  | n + 1, h, msg =>
      match msg with
      | [] => h
      | b :: rest => processBlocksAux n (compress h ((b :: rest).take 64)) ((b :: rest).drop 64)

def processBlocks (h : List Nat) (msg : List Nat) : List Nat :=
  processBlocksAux msg.length h msg

/-- Big-endian 8-byte encoding of the bit length. -/
def lenBytes (bits : Nat) : List Nat :=
  [bits / 2 ^ 56 % 256, bits / 2 ^ 48 % 256, bits / 2 ^ 40 % 256, bits / 2 ^ 32 % 256,
   bits / 2 ^ 24 % 256, bits / 2 ^ 16 % 256, bits / 2 ^ 8 % 256, bits % 256]

/-- FIPS 180-4 padding: append `0x80`, zeros, then the 64-bit message length. -/
def pad (msg : List Nat) : List Nat :=
  let l := msg.length
  let zeros := (64 - (l + 9) % 64) % 64
  msg ++ [0x80] ++ List.replicate zeros 0 ++ lenBytes (l * 8)

def hexChar (n : Nat) : Char :=
  if n < 10 then Char.ofNat (48 + n) else Char.ofNat (87 + n)

def byteToHex (b : Nat) : List Char := [hexChar (b / 16), hexChar (b % 16)]

def wordToBytes (w : Nat) : List Nat :=
  [w / 16777216 % 256, w / 65536 % 256, w / 256 % 256, w % 256]

/-- UTF-8 encoding of one code point (model of Python `str.encode()`). -/
def utf8Bytes (c : Char) : List Nat :=
  let n := c.toNat
  if n < 128 then [n]
  else if n < 2048 then [192 + n / 64, 128 + n % 64]
  else if n < 65536 then [224 + n / 4096, 128 + n / 64 % 64, 128 + n % 64]
  else [240 + n / 262144, 128 + n / 4096 % 64, 128 + n / 64 % 64, 128 + n % 64]

def strBytes (s : String) : List Nat := (s.data.map utf8Bytes).flatten

/-- Model of `hashlib.sha256(s.encode()).hexdigest()`: the lowercase 64-char
hex digest of the UTF-8 bytes of `s`. -/
def hexdigest (s : String) : String :=
  let hs := processBlocks H0 (pad (strBytes s))
  String.mk (((hs.map wordToBytes).flatten.map byteToHex).flatten)

end Sha256

/-- The FIPS 180-4 test vector for `"abc"`, validating the digest model. -/
theorem sha256_abc_test_vector :
    Sha256.hexdigest "abc" =
      "ba7816bf8f01cfea414140de5dae2223b00361a396177a9cb410ff61f20015ad" := by
  decide

/-! ## String slicing and UUID formatting

Model of Python's `hexdigest()[:32]` slice and of
`str(uuid.UUID(hex=h))` — the canonical 8-4-4-4-12 hyphenated form of a
32-hex-character string. -/

/-- Model of the Python slice `s[:n]`. -/
def strTake (s : String) (n : Nat) : String := String.mk (s.data.take n)

/-- Model of the Python slice `s[n:]`. -/
def strDrop (s : String) (n : Nat) : String := String.mk (s.data.drop n)

/-- Model of `str(uuid.UUID(hex=h))` for a 32-hex-char `h`: hyphens inserted
after characters 8, 12, 16 and 20. -/
def uuidOfHex32 (h : String) : String :=
  strTake h 8 ++ "-" ++ strTake (strDrop h 8) 4 ++ "-" ++ strTake (strDrop h 12) 4 ++ "-" ++
    strTake (strDrop h 16) 4 ++ "-" ++ strDrop h 20

/-! ## Fingerprint (qdrant_client.py, `insert_stock_data` lines 105–108) -/

/-- `unique_key = f"{stock_id}_{date}_{data_type}"` (qdrant_client.py:105). -/
def unique_key (stock_id date data_type : String) : String :=
  stock_id ++ "_" ++ date ++ "_" ++ data_type

/-- The deterministic point id derived from the key triple
(qdrant_client.py:107–108): the first 32 hex chars of the SHA-256 digest of
`unique_key`, formatted as a UUID string. -/
def point_id_of (stock_id date data_type : String) : String :=
  uuidOfHex32 (strTake (Sha256.hexdigest (unique_key stock_id date data_type)) 32)

/-! ## Vector store data model

Scores and vector components are rationals (models of machine floats).  The
payload shape is exactly what `insert_stock_data` writes
(qdrant_client.py:110–119): five string fields plus an optional metadata
value of type `μ` (a falsy/absent `metadata` argument is modelled as
`none`). -/

/-- Stored payload, as written by `insert_stock_data`. -/
structure Payload (μ : Type) where
  text : String
  stock_id : String
  stock_name : String
  date : String
  data_type : String
  metadata : Option μ
  deriving DecidableEq

/-- One stored point of the vector store. -/
structure Point (μ : Type) where
  id : String
  vector : List ℚ
  payload : Payload μ
  deriving DecidableEq

/-- The vector store collection: the list of currently stored points. -/
abbrev Store (μ : Type) : Type := List (Point μ)

/-- A `FieldCondition(key=k, match=MatchValue(value=v))` equality condition. -/
structure FieldCondition where
  key : String
  value : String
  deriving DecidableEq

/-- Payload lookup for filter matching: the five top-level string fields
written by `insert_stock_data`; any other key (including `metadata`, whose
value is not a string) never matches a `MatchValue`. -/
def Payload.getStr (pl : Payload μ) (key : String) : Option String :=
  if key = "text" then some pl.text
  else if key = "stock_id" then some pl.stock_id
  else if key = "stock_name" then some pl.stock_name
  else if key = "date" then some pl.date
  else if key = "data_type" then some pl.data_type
  else none

/-- Modelled from the spec (§6, vector store): a point satisfies a `must`
filter when every field-equality condition matches its payload. -/
def matchesFilter (conds : List FieldCondition) (p : Point μ) : Bool :=
  conds.all fun c => p.payload.getStr c.key == some c.value

/-- A point paired with its similarity score for the query at hand. -/
structure ScoredPoint (μ : Type) where
  point : Point μ
  score : ℚ
  deriving DecidableEq

/-- Modelled from the spec (§6, vector store): similarity search.  Points
passing the optional `must` filter are ranked by descending similarity score
(`score` abstracts the cosine similarity against the query vector) and at
most `limit` results are returned. -/
def clientSearch (score : Point μ → ℚ) (store : Store μ) (limit : Nat)
    (query_filter : Option (List FieldCondition)) : List (ScoredPoint μ) :=
  let matched := match query_filter with
    | some conds => store.filter (matchesFilter conds)
    | none => store
  let scored := matched.map fun p => ScoredPoint.mk p (score p)
  (scored.insertionSort fun a b => b.score ≤ a.score).take limit

/-- Modelled from the spec (§4.2, §6): store-level upsert-by-id — a write
with an already-present id replaces that point, never duplicates it. -/
def upsertPoint (store : Store μ) (p : Point μ) : Store μ :=
  p :: store.filter fun q => q.id ≠ p.id

/-! ## StockVectorDB (qdrant_client.py) -/

/-- Translation of `StockVectorDB.insert_stock_data` (qdrant_client.py:80–132):
derives the fingerprint id from the key triple, builds the payload, and
upserts one point.  Returns the point id and the updated store (the store is
threaded explicitly in place of the external client's side effect). -/
def insert_stock_data (store : Store μ) (text : String) (vector : List ℚ)
    (stock_id stock_name date data_type : String) (metadata : Option μ) :
    String × Store μ :=
  let point_id := point_id_of stock_id date data_type
  let payload : Payload μ :=
    { text := text, stock_id := stock_id, stock_name := stock_name,
      date := date, data_type := data_type, metadata := metadata }
  let point : Point μ := { id := point_id, vector := vector, payload := payload }
  (point_id, upsertPoint store point)

/-- Python truthiness of an `Optional[str]`: `None` and `""` are falsy. -/
def strTruthy : Option String → Bool
  | none => false
  | some s => s ≠ ""

/-- Translation of the filter construction in `StockVectorDB.search`
(qdrant_client.py:156–175): a `stock_id` equality condition when `stock_id`
is truthy, a `data_type` condition when truthy, then every entry of the
custom `filter_conditions["must"]` list (modelled as key/value pairs). -/
def buildFilters (stock_id data_type : Option String)
    (filter_conditions : Option (List (String × String))) : List FieldCondition :=
  (if strTruthy stock_id then [FieldCondition.mk "stock_id" (stock_id.getD "")] else []) ++
  (if strTruthy data_type then [FieldCondition.mk "data_type" (data_type.getD "")] else []) ++
  (match filter_conditions with
   | some conds => conds.map fun c => FieldCondition.mk c.1 c.2
   | none => [])

/-- `query_filter = Filter(must=filters) if filters else None`
(qdrant_client.py:177). -/
def queryFilterOf (filters : List FieldCondition) : Option (List FieldCondition) :=
  if filters.isEmpty then none else some filters

/-- One entry of the result-dict list built by `StockVectorDB.search`
(qdrant_client.py:186–198). -/
structure SearchResult (μ : Type) where
  id : String
  score : ℚ
  text : String
  stock_id : String
  stock_name : String
  date : String
  data_type : String
  metadata : Option μ
  deriving DecidableEq

/-- Translation of `StockVectorDB.search` (qdrant_client.py:134–198).  The
external client's scoring of a point against `query_vector` is the abstract
parameter `scoreOf`; the store is passed explicitly. -/
def StockVectorDB.search (scoreOf : List ℚ → Point μ → ℚ) (store : Store μ)
    (query_vector : List ℚ) (limit : Nat) (stock_id data_type : Option String)
    (filter_conditions : Option (List (String × String))) : List (SearchResult μ) :=
  let filters := buildFilters stock_id data_type filter_conditions
  let results := clientSearch (scoreOf query_vector) store limit (queryFilterOf filters)
  results.map fun r =>
    { id := r.point.id, score := r.score, text := r.point.payload.text,
      stock_id := r.point.payload.stock_id, stock_name := r.point.payload.stock_name,
      date := r.point.payload.date, data_type := r.point.payload.data_type,
      metadata := r.point.payload.metadata }

/-! ## Claims C2 and C3: fingerprint determinism and collisions -/

/-- The fingerprint pipeline applied to an arbitrary key string: truncated
SHA-256 digest formatted as a UUID.  `point_id_of` is this pipeline composed
with `unique_key`. -/
def keyFingerprint (key : String) : String :=
  uuidOfHex32 (strTake (Sha256.hexdigest key) 32)

/-- A collision of `f`: two distinct inputs with the same image. -/
def Collision {α β : Type} (f : α → β) : Prop :=
  ∃ a b, a ≠ b ∧ f a = f b

/-- Splitting at a separator that occurs in neither left part is injective. -/
theorem append_sep_inj {α : Type} (sep : α) :
    ∀ (a1 a2 b1 b2 : List α), sep ∉ a1 → sep ∉ a2 →
      a1 ++ sep :: b1 = a2 ++ sep :: b2 → a1 = a2 ∧ b1 = b2 := by
  intro a1
  induction a1 with
  | nil =>
      intro a2 b1 b2 _ h2 heq
      cases a2 with
      | nil => exact ⟨rfl, (List.cons.injEq _ _ _ _ ▸ heq).2⟩
      | cons y a2' =>
          simp only [List.nil_append, List.cons_append, List.cons.injEq] at heq
          exact absurd (heq.1 ▸ List.mem_cons_self y a2') h2
  | cons x a1' ih =>
      intro a2 b1 b2 h1 h2 heq
      cases a2 with
      | nil =>
          simp only [List.cons_append, List.nil_append, List.cons.injEq] at heq
          exact absurd (heq.1 ▸ List.mem_cons_self x a1') h1
      | cons y a2' =>
          simp only [List.cons_append, List.cons.injEq] at heq
          have h1' : sep ∉ a1' := fun hm => h1 (List.mem_cons_of_mem x hm)
          have h2' : sep ∉ a2' := fun hm => h2 (List.mem_cons_of_mem y hm)
          obtain ⟨ha, hb⟩ := ih a2' b1 b2 h1' h2' heq.2
          exact ⟨by rw [heq.1, ha], hb⟩

/-- The character data of a `unique_key`, exposed as two separator splits. -/
theorem unique_key_data (s d t : String) :
    (unique_key s d t).data = s.data ++ '_' :: (d.data ++ '_' :: t.data) := by
  simp [unique_key, String.data_append]

/-- When `stock_id` and `date` contain no underscore, the canonical key string
determines the triple. -/
theorem unique_key_inj (s1 d1 t1 s2 d2 t2 : String)
    (hs1 : '_' ∉ s1.data) (hd1 : '_' ∉ d1.data)
    (hs2 : '_' ∉ s2.data) (hd2 : '_' ∉ d2.data)
    (h : unique_key s1 d1 t1 = unique_key s2 d2 t2) :
    s1 = s2 ∧ d1 = d2 ∧ t1 = t2 := by
  have hdata := congrArg String.data h
  rw [unique_key_data, unique_key_data] at hdata
  obtain ⟨hs, hrest⟩ := append_sep_inj '_' _ _ _ _ hs1 hs2 hdata
  obtain ⟨hd, ht⟩ := append_sep_inj '_' _ _ _ _ hd1 hd2 hrest
  refine ⟨?_, ?_, ?_⟩
  · cases s1; cases s2; exact congrArg String.mk hs
  · cases d1; cases d2; exact congrArg String.mk hd
  · cases t1; cases t2; exact congrArg String.mk ht

/-- C2: the fingerprint returned by `insert_stock_data` equals the UUID formed
from the first 32 hexadecimal characters of the SHA-256 digest of
`stock_id ++ "_" ++ date ++ "_" ++ data_type`; it is a deterministic function
of the key triple — two calls with equal triples return the identical
identifier regardless of store state, text, vector, stock name or metadata.
The last conjunct pins a concrete triple to the identifier produced by
CPython's `hashlib`/`uuid` on the same input. -/
theorem C2_fingerprint_formula_and_deterministic {μ ν : Type} :
    ∀ (store : Store μ) (store2 : Store ν) (text text2 : String)
      (vector vector2 : List ℚ) (stock_id stock_name stock_name2 date data_type : String)
      (metadata : Option μ) (metadata2 : Option ν),
    (insert_stock_data store text vector stock_id stock_name date data_type metadata).1
      = uuidOfHex32 (strTake (Sha256.hexdigest (stock_id ++ "_" ++ date ++ "_" ++ data_type)) 32)
    ∧ (insert_stock_data store text vector stock_id stock_name date data_type metadata).1
      = (insert_stock_data store2 text2 vector2 stock_id stock_name2 date data_type metadata2).1
    ∧ (insert_stock_data (μ := Unit) [] "any text" [0] "2330" "台積電" "2024-01-02"
        "technical" none).1 = "6cd9ee5d-3f65-efa5-a2ca-1183dc49f2e5" := by
  intro store store2 text text2 vector vector2 stock_id stock_name stock_name2 date
    data_type metadata metadata2
  exact ⟨rfl, rfl, by decide⟩

/-- C3 counterexample: two distinct triples whose underscore-joined key
strings coincide, hence whose fingerprints coincide — the claim that distinct
triples never share a storage key is false as stated. -/
theorem C3_counterexample :
    (("a_b", "c", "technical") : String × String × String) ≠ ("a", "b_c", "technical")
    ∧ (insert_stock_data (μ := Unit) [] "t1" [0] "a_b" "n1" "c" "technical" none).1
      = (insert_stock_data (μ := Unit) [] "t2" [1] "a" "n2" "b_c" "technical" none).1 := by
  exact ⟨by decide, by decide⟩

/-- C3 (amended): distinct triples whose `stock_id` and `date` contain no
underscore (true of all real stock codes and ISO dates) have distinct
canonical key strings, and any fingerprint equality between them exhibits a
collision of the truncated-SHA-256 UUID pipeline on two distinct strings —
so, modelling that pipeline as collision-free, their fingerprints are
distinct. -/
theorem C3_amended_distinct_keys (s1 d1 t1 s2 d2 t2 : String)
    (hne : (s1, d1, t1) ≠ (s2, d2, t2))
    (hs1 : '_' ∉ s1.data) (hd1 : '_' ∉ d1.data)
    (hs2 : '_' ∉ s2.data) (hd2 : '_' ∉ d2.data) :
    unique_key s1 d1 t1 ≠ unique_key s2 d2 t2
    ∧ (point_id_of s1 d1 t1 = point_id_of s2 d2 t2 → Collision keyFingerprint) := by
  have hkey : unique_key s1 d1 t1 ≠ unique_key s2 d2 t2 := by
    intro h
    obtain ⟨a, b, c⟩ := unique_key_inj s1 d1 t1 s2 d2 t2 hs1 hd1 hs2 hd2 h
    exact hne (by rw [a, b, c])
  exact ⟨hkey, fun hfp => ⟨unique_key s1 d1 t1, unique_key s2 d2 t2, hkey, hfp⟩⟩

/-- Witness for `C3_amended_distinct_keys` at two concrete triples that differ
in their date. -/
theorem C3_amended_witness :
    unique_key "2330" "2024-01-02" "technical" ≠ unique_key "2330" "2024-01-03" "technical"
    ∧ (point_id_of "2330" "2024-01-02" "technical" = point_id_of "2330" "2024-01-03" "technical"
        → Collision keyFingerprint) :=
  C3_amended_distinct_keys "2330" "2024-01-02" "technical" "2330" "2024-01-03" "technical"
    (by decide) (by decide) (by decide) (by decide) (by decide)

/-! ## Python string/number formatting helpers

The sources render floats with fixed-point f-string formats (`:.2f`, `:.3f`,
`:.4f`, `:+.2f`) and integers with the thousands separator (`:,`); floats are
modelled as rationals, and fixed-point rendering rounds half-to-even as
CPython does. -/

/-- Model of Python's `str.join`: `pyJoin sep xs` interleaves `sep` between
the elements of `xs`. -/
def pyJoin (sep : String) : List String → String
  | [] => ""
  | [x] => x
  | x :: y :: xs => x ++ sep ++ pyJoin sep (y :: xs)

/-- Floor of a rational, written explicitly so the kernel can evaluate it. -/
def ratFloor (q : ℚ) : ℤ := Int.fdiv q.num (q.den : ℤ)

/-- Absolute value of a rational, written explicitly so the kernel can
evaluate it. -/
def ratAbs (q : ℚ) : ℚ := if q < 0 then -q else q

/-- Round a rational to the nearest integer, ties to the even neighbour,
computed on the numerator and denominator so the kernel can evaluate it:
with `f = ⌊q⌋` and fractional remainder `r/d`, compare `2r` against `d`. -/
def roundHalfEven (q : ℚ) : ℤ :=
  let n := q.num
  let d := (q.den : ℤ)
  let f := Int.fdiv n d
  let r2 := 2 * (n - f * d)
  if r2 < d then f
  else if d < r2 then f + 1
  else if f % 2 = 0 then f else f + 1

/-- Left-pad a digit string with zeros to width `n`. -/
def padZeros (n : Nat) (s : String) : String :=
  String.mk (List.replicate (n - s.length) '0') ++ s

/-- Model of Python fixed-point formatting `f"{q:.{prec}f}"` (with a leading
`+` for the `:+` variant). -/
def formatFixed (prec : Nat) (plus : Bool) (q : ℚ) : String :=
  let sign := if q < 0 then "-" else if plus then "+" else ""
  let m := (roundHalfEven (ratAbs q * ((10 : ℚ) ^ prec))).toNat
  let ip := m / 10 ^ prec
  let fp := m % 10 ^ prec
  sign ++ toString ip ++ (if prec = 0 then "" else "." ++ padZeros prec (toString fp))

/-- Group decimal digits (given least-significant first) in threes with
commas; the fuel argument bounds the recursion structurally. -/
def groupThreesAux : Nat → List Char → List Char
  | 0, l => l
  | fuel + 1, a :: b :: c :: d :: rest => a :: b :: c :: ',' :: groupThreesAux fuel (d :: rest)
  | _ + 1, l => l

/-- Model of Python's thousands-separator format `f"{n:,}"` for integers. -/
def commaFmt (n : ℤ) : String :=
  let ds := (toString n.natAbs).data
  (if n < 0 then "-" else "") ++ String.mk (groupThreesAux ds.length ds.reverse).reverse

/-! ## StockRetriever (rag/retriever.py) -/

/-- Translation of `StockRetriever.retrieve` (retriever.py:26–56): embed the
query (`encode` abstracts the external embedding model) and search the store
with `limit = top_k`, the two optional equality filters, and no custom filter
conditions. -/
def StockRetriever.retrieve (scoreOf : List ℚ → Point μ → ℚ) (encode : String → List ℚ)
    (store : Store μ) (query : String) (top_k : Nat)
    (stock_id data_type : Option String) : List (SearchResult μ) :=
  StockVectorDB.search scoreOf store (encode query) top_k stock_id data_type none

/-- The loop body of `format_context` (retriever.py:71–75): for each result,
a rank/score header line, the stored text, and an empty line. -/
def contextParts : List (SearchResult μ) → Nat → List String
  | [], _ => []
  | r :: rs, i =>
      ("[資料 " ++ toString i ++ "] (相關度: " ++ formatFixed 3 false r.score ++ ")")
        :: r.text :: "" :: contextParts rs (i + 1)

/-- Translation of `StockRetriever.format_context` (retriever.py:58–77):
the no-data sentinel for an empty result list, otherwise the newline-join of
the accumulated parts. -/
def StockRetriever.format_context (results : List (SearchResult μ)) : String :=
  if results.isEmpty then "找不到相關的股市資料。"
  else pyJoin "\n" (contextParts results 1)

/-- The rendered block for the result of 1-based rank `i`: header line with
rank and three-decimal score, then the stored text. -/
def contextChunk (i : Nat) (r : SearchResult μ) : String :=
  ("[資料 " ++ toString i ++ "] (相關度: " ++ formatFixed 3 false r.score ++ ")") ++ "\n" ++ r.text

/-- Joining the accumulated parts with newlines renders each result as its
rank/score chunk, chunks separated by blank lines, with a trailing newline. -/
theorem pyJoin_contextParts {μ : Type} :
    ∀ (results : List (SearchResult μ)) (i : Nat), results ≠ [] →
      pyJoin "\n" (contextParts results i)
        = pyJoin "\n\n" ((List.enumFrom i results).map fun p => contextChunk p.1 p.2) ++ "\n" := by
  intro results
  induction results with
  | nil => intro i h; exact absurd rfl h
  | cons r rs ih =>
      intro i _
      cases rs with
      | nil =>
          show _ ++ "\n" ++ (r.text ++ "\n" ++ "") = contextChunk i r ++ "\n"
          rw [String.append_empty, contextChunk]
          simp only [String.append_assoc]
      | cons r2 rs2 =>
          have step : pyJoin "\n" (contextParts (r :: r2 :: rs2) i)
              = ("[資料 " ++ toString i ++ "] (相關度: " ++ formatFixed 3 false r.score ++ ")")
                ++ "\n" ++ (r.text ++ "\n" ++ ("" ++ "\n" ++
                  pyJoin "\n" (contextParts (r2 :: rs2) (i + 1)))) := rfl
          rw [step, String.empty_append, ih (i + 1) (by simp)]
          show _ = (contextChunk i r ++ "\n\n" ++
            pyJoin "\n\n" ((List.enumFrom (i + 1) (r2 :: rs2)).map fun p => contextChunk p.1 p.2)) ++ "\n"
          rw [contextChunk]
          have glue : ("\n\n" : String) = "\n" ++ "\n" := rfl
          rw [glue]
          simp only [String.append_assoc]

/-- C7: `format_context` of an empty result list is the fixed no-data
sentinel (a nonempty string); of a nonempty list it is the blank-line-joined
sequence of blocks, where the block of 1-based rank `i` is the header
carrying the rank and the three-decimal similarity score followed by the
stored text, with a trailing newline. -/
theorem C7_format_context {μ : Type} :
    StockRetriever.format_context ([] : List (SearchResult μ)) = "找不到相關的股市資料。"
    ∧ ("找不到相關的股市資料。" : String) ≠ ""
    ∧ ∀ (results : List (SearchResult μ)), results ≠ [] →
        StockRetriever.format_context results
          = pyJoin "\n\n" ((List.enumFrom 1 results).map fun p => contextChunk p.1 p.2) ++ "\n" := by
  refine ⟨rfl, by decide, ?_⟩
  intro results h
  rw [StockRetriever.format_context, if_neg (by simpa using h)]
  exact pyJoin_contextParts results 1 h

/-- Witness for `C7_format_context` at a concrete singleton result list. -/
theorem C7_format_context_witness :
    StockRetriever.format_context
        [({ id := "p1", score := 1 / 2, text := "demo text", stock_id := "2330",
            stock_name := "台積電", date := "2024-01-02", data_type := "technical",
            metadata := none } : SearchResult Unit)]
      = pyJoin "\n\n" ((List.enumFrom 1
          [({ id := "p1", score := 1 / 2, text := "demo text", stock_id := "2330",
              stock_name := "台積電", date := "2024-01-02", data_type := "technical",
              metadata := none } : SearchResult Unit)]).map fun p => contextChunk p.1 p.2) ++ "\n" :=
  C7_format_context.2.2 _ (by simp)

/-! ## StockAnalysisGenerator (rag/generator.py) -/

/-- The default system prompt (generator.py:44–50). -/
def DEFAULT_SYSTEM_PROMPT : String :=
  "你是一個專業的台灣股市分析助手。\n請根據提供的歷史資料和技術指標，提供專業、客觀的分析和建議。\n注意：\n1. 僅根據提供的資料進行分析\n2. 說明你的分析依據\n3. 避免過度承諾或保證\n4. 提醒投資風險"

/-- The fixed user-turn prompt template (generator.py:53–59). -/
def fullPrompt (context query : String) : String :=
  "參考資料：\n" ++ context ++ "\n\n用戶問題：\n" ++ query ++ "\n\n請基於以上資料回答問題。"

/-- Translation of `StockAnalysisGenerator.generate` (generator.py:26–73).
The external `ollama.chat` call on the system and user turns is the abstract
parameter `chat`, returning either the response content or a raised error
message; the `except` branch renders the Chinese apology naming the model. -/
def StockAnalysisGenerator.generate (model_name : String)
    (chat : String → String → Except String String)
    (query context : String) (system_prompt : Option String) : String :=
  let sys := system_prompt.getD DEFAULT_SYSTEM_PROMPT
  match chat sys (fullPrompt context query) with
  | Except.ok content => content
  | Except.error e =>
      "生成回答時發生錯誤：" ++ e ++ "\n\n請確認 Ollama 已啟動且已下載 " ++ model_name ++ " 模型。"

/-- C9: `generate` never propagates a failure — it always returns a string.
When the chat call raises, the result is the Chinese apology string that
contains the configured model name as a substring; when the chat call
succeeds, the result is exactly the service's response text. -/
theorem C9_generate_never_fails
    (model_name query context : String) (system_prompt : Option String)
    (chat : String → String → Except String String) :
    (∀ e, chat (system_prompt.getD DEFAULT_SYSTEM_PROMPT) (fullPrompt context query)
        = Except.error e →
      StockAnalysisGenerator.generate model_name chat query context system_prompt
        = "生成回答時發生錯誤：" ++ e ++ "\n\n請確認 Ollama 已啟動且已下載 "
            ++ model_name ++ " 模型。"
      ∧ model_name.data
          <:+: (StockAnalysisGenerator.generate model_name chat query context system_prompt).data)
    ∧ (∀ r, chat (system_prompt.getD DEFAULT_SYSTEM_PROMPT) (fullPrompt context query)
        = Except.ok r →
      StockAnalysisGenerator.generate model_name chat query context system_prompt = r) := by
  constructor
  · intro e he
    have hgen : StockAnalysisGenerator.generate model_name chat query context system_prompt
        = "生成回答時發生錯誤：" ++ e ++ "\n\n請確認 Ollama 已啟動且已下載 "
            ++ model_name ++ " 模型。" := by
      rw [StockAnalysisGenerator.generate, he]
    refine ⟨hgen, ?_⟩
    rw [hgen]
    refine ⟨("生成回答時發生錯誤：" ++ e ++ "\n\n請確認 Ollama 已啟動且已下載 ").data,
      (" 模型。" : String).data, ?_⟩
    simp [String.data_append, List.append_assoc]
  · intro r hr
    rw [StockAnalysisGenerator.generate, hr]

/-- Witness for `C9_generate_never_fails`: a chat stub that raises yields the
apology naming the model; a chat stub that answers yields the answer. -/
theorem C9_generate_witness :
    StockAnalysisGenerator.generate "deepseek-r1:1.5b" (fun _ _ => Except.error "boom")
        "q" "ctx" none
      = "生成回答時發生錯誤：" ++ "boom" ++ "\n\n請確認 Ollama 已啟動且已下載 "
          ++ "deepseek-r1:1.5b" ++ " 模型。"
    ∧ StockAnalysisGenerator.generate "deepseek-r1:1.5b" (fun _ _ => Except.ok "an answer")
        "q" "ctx" none = "an answer" :=
  ⟨((C9_generate_never_fails "deepseek-r1:1.5b" "q" "ctx" none
      (fun _ _ => Except.error "boom")).1 "boom" rfl).1,
   (C9_generate_never_fails "deepseek-r1:1.5b" "q" "ctx" none
      (fun _ _ => Except.ok "an answer")).2 "an answer" rfl⟩

/-! ## Claim C6: filtered retrieval -/

/-- Every result of the store-level search is a stored point, and it passes
every condition of the applied filter. -/
theorem mem_clientSearch {μ : Type} (score : Point μ → ℚ) (store : Store μ) (limit : Nat)
    (qf : Option (List FieldCondition)) (sp : ScoredPoint μ)
    (h : sp ∈ clientSearch score store limit qf) :
    sp.point ∈ store ∧ ∀ conds, qf = some conds → matchesFilter conds sp.point = true := by
  have h1 : sp ∈ ((match qf with
      | some conds => store.filter (matchesFilter conds)
      | none => store).map fun p => ScoredPoint.mk p (score p)) := by
    have h2 := List.take_subset _ _ h
    exact (List.perm_insertionSort _ _).mem_iff.mp h2
  obtain ⟨p, hp, hps⟩ := List.mem_map.mp h1
  cases qf with
  | none =>
      refine ⟨?_, fun conds hc => by cases hc⟩
      rw [← hps]
      exact hp
  | some conds =>
      obtain ⟨hpstore, hpm⟩ := List.mem_filter.mp hp
      refine ⟨by rw [← hps]; exact hpstore, fun conds2 hc => ?_⟩
      cases hc
      rw [← hps]
      exact hpm

/-- A point passing a filter satisfies each individual condition. -/
theorem matchesFilter_cond {μ : Type} (conds : List FieldCondition) (p : Point μ)
    (c : FieldCondition) (hc : c ∈ conds) (h : matchesFilter conds p = true) :
    p.payload.getStr c.key = some c.value := by
  have := List.all_eq_true.mp h c hc
  exact beq_iff_eq.mp this

/-- A nonempty filter list is wrapped in `some` by `queryFilterOf`. -/
theorem queryFilterOf_ne_nil (filters : List FieldCondition) (h : filters ≠ []) :
    queryFilterOf filters = some filters := by
  rw [queryFilterOf, if_neg]
  simpa using h

/-- C6 (amended): `retrieve` returns at most `top_k` results ordered by
descending similarity score; a supplied **non-empty** `stock_id` (resp.
`data_type`) acts as an equality filter on every returned result, both
filters conjunctively when both are non-empty; and when neither is supplied
no filter is constructed.  (A supplied empty string is falsy in Python and is
treated exactly like an absent filter — see `C6_counterexample`.) -/
theorem C6_retrieve_filtered {μ : Type} (scoreOf : List ℚ → Point μ → ℚ)
    (encode : String → List ℚ) (store : Store μ) (query : String) (top_k : Nat)
    (sid dt : Option String) :
    (StockRetriever.retrieve scoreOf encode store query top_k sid dt).length ≤ top_k
    ∧ (∀ r ∈ StockRetriever.retrieve scoreOf encode store query top_k sid dt,
        ∀ s, sid = some s → s ≠ "" → r.stock_id = s)
    ∧ (∀ r ∈ StockRetriever.retrieve scoreOf encode store query top_k sid dt,
        ∀ t, dt = some t → t ≠ "" → r.data_type = t)
    ∧ ((StockRetriever.retrieve scoreOf encode store query top_k sid dt).map
        SearchResult.score).Pairwise (· ≥ ·)
    ∧ (sid = none → dt = none → queryFilterOf (buildFilters sid dt none) = none) := by
  refine ⟨?_, ?_, ?_, ?_, ?_⟩
  · rw [StockRetriever.retrieve, StockVectorDB.search, List.length_map]
    exact List.length_take_le _ _
  · intro r hr s hsid hs
    subst hsid
    obtain ⟨sp, hsp, hspr⟩ := List.mem_map.mp hr
    have hfilters : buildFilters (some s) dt none
        = FieldCondition.mk "stock_id" s :: (buildFilters none dt none) := by
      rw [buildFilters, buildFilters]
      rw [if_pos (by simpa [strTruthy] using hs)]
      simp [strTruthy]
    have hne : buildFilters (some s) dt none ≠ [] := by rw [hfilters]; simp
    have hqf := queryFilterOf_ne_nil _ hne
    obtain ⟨_, hconds⟩ := mem_clientSearch _ _ _ _ sp hsp
    have hm := hconds _ hqf
    have hcond := matchesFilter_cond _ _ (FieldCondition.mk "stock_id" s)
      (by rw [hfilters]; exact List.mem_cons_self _ _) hm
    rw [← hspr]
    simpa [Payload.getStr] using hcond
  · intro r hr t hdt ht
    subst hdt
    obtain ⟨sp, hsp, hspr⟩ := List.mem_map.mp hr
    have hmem : FieldCondition.mk "data_type" t ∈ buildFilters sid (some t) none := by
      rw [buildFilters]
      refine List.mem_append.mpr (Or.inl ?_)
      refine List.mem_append.mpr (Or.inr ?_)
      simp [strTruthy, ht]
    have hne : buildFilters sid (some t) none ≠ [] := fun hnil => by
      rw [hnil] at hmem; exact absurd hmem (List.not_mem_nil _)
    have hqf := queryFilterOf_ne_nil _ hne
    obtain ⟨_, hconds⟩ := mem_clientSearch _ _ _ _ sp hsp
    have hcond := matchesFilter_cond _ _ _ hmem (hconds _ hqf)
    rw [← hspr]
    simpa [Payload.getStr] using hcond
  · rw [StockRetriever.retrieve, StockVectorDB.search, List.map_map]
    have hmm : (SearchResult.score (μ := μ)) ∘ (fun r =>
        ({ id := r.point.id, score := r.score, text := r.point.payload.text,
           stock_id := r.point.payload.stock_id, stock_name := r.point.payload.stock_name,
           date := r.point.payload.date, data_type := r.point.payload.data_type,
           metadata := r.point.payload.metadata } : SearchResult μ))
        = fun sp : ScoredPoint μ => sp.score := rfl
    rw [hmm, List.pairwise_map]
    haveI : IsTotal (ScoredPoint μ) (fun a b => b.score ≤ a.score) :=
      ⟨fun a b => le_total b.score a.score⟩
    haveI : IsTrans (ScoredPoint μ) (fun a b => b.score ≤ a.score) :=
      ⟨fun _ _ _ hab hbc => le_trans hbc hab⟩
    have hsorted := List.sorted_insertionSort (fun a b : ScoredPoint μ => b.score ≤ a.score)
      ((match queryFilterOf (buildFilters sid dt none) with
        | some conds => store.filter (matchesFilter conds)
        | none => store).map fun p => ScoredPoint.mk p (scoreOf (encode query) p))
    exact List.Pairwise.sublist (List.take_sublist _ _) hsorted
  · intro h1 h2
    subst h1; subst h2
    rfl

/-- Witness for `C6_retrieve_filtered` at a concrete store and non-empty
filter values. -/
theorem C6_retrieve_filtered_witness :
    (∀ r ∈ StockRetriever.retrieve (μ := Unit) (fun _ _ => 0) (fun _ => [0])
        [Point.mk "x" [0] (Payload.mk "doc" "2330" "台積電" "2024-01-02" "technical" none)]
        "q" 5 (some "2330") (some "technical"),
      ∀ s, some "2330" = some s → s ≠ "" → r.stock_id = s) ∧
    queryFilterOf (buildFilters none none none) = none :=
  ⟨(C6_retrieve_filtered (μ := Unit) (fun _ _ => 0) (fun _ => [0])
      [Point.mk "x" [0] (Payload.mk "doc" "2330" "台積電" "2024-01-02" "technical" none)]
      "q" 5 (some "2330") (some "technical")).2.1,
   (C6_retrieve_filtered (μ := Unit) (fun _ _ => 0) (fun _ => [0])
      [Point.mk "x" [0] (Payload.mk "doc" "2330" "台積電" "2024-01-02" "technical" none)]
      "q" 5 none none).2.2.2.2 rfl rfl⟩

/-- C6 counterexample: with `stock_id` supplied as the empty string (falsy in
Python), `retrieve` applies no stock filter at all, so a stored point whose
stock identity is `"2330"` is returned — the claim that every supplied
`stock_id` acts as an equality filter on the results is false as stated. -/
theorem C6_counterexample :
    ¬ ∀ r ∈ StockRetriever.retrieve (μ := Unit) (fun _ _ => 0) (fun _ => [0])
        [Point.mk "x" [0] (Payload.mk "doc" "2330" "台積電" "2024-01-02" "technical" none)]
        "q" 1 (some "") none,
      r.stock_id = "" := by
  intro h
  have hr := h (SearchResult.mk "x" 0 "doc" "2330" "台積電" "2024-01-02" "technical" none)
    (by decide)
  revert hr
  decide

/-! ## FundamentalFormatter (data/fundamentals.py) -/

/-- A Python dict of fundamental metrics with possibly-missing keys: the
fields read by the formatter; `none` models an absent key. -/
structure FundDict where
  revenue : Option ℚ
  operating_income : Option ℚ
  net_income : Option ℚ
  eps : Option ℚ
  date : Option String
  deriving DecidableEq

namespace FundamentalFormatter

/-- The unconditional lines of `format_as_text` (fundamentals.py:29–48),
with the `get(..., 0)` / `get('date', 'N/A')` defaults applied. -/
def baseLines (stock_id stock_name : String) (f : FundDict) : List String :=
  ["股票代碼：" ++ stock_id,
   "公司名稱：" ++ stock_name,
   "財報日期：" ++ f.date.getD "N/A",
   "",
   "基本面資訊：",
   "營收：" ++ formatFixed 2 false (f.revenue.getD 0 / 1000000) ++ "百萬元",
   "營業利益：" ++ formatFixed 2 false (f.operating_income.getD 0 / 1000000) ++ "百萬元",
   "淨利：" ++ formatFixed 2 false (f.net_income.getD 0 / 1000000) ++ "百萬元",
   "每股盈餘(EPS)：" ++ formatFixed 2 false (f.eps.getD 0) ++ "元"]

/-- The margin lines appended under the `revenue > 0` guard
(fundamentals.py:50–57); the inner conditions are Python truthiness of the
numerators. -/
def marginLines (f : FundDict) : List String :=
  if 0 < f.revenue.getD 0 then
    (if f.operating_income.getD 0 ≠ 0 then
        ["營業利益率：" ++
          formatFixed 2 false (f.operating_income.getD 0 / f.revenue.getD 0 * 100) ++ "%"]
      else []) ++
    (if f.net_income.getD 0 ≠ 0 then
        ["淨利率：" ++ formatFixed 2 false (f.net_income.getD 0 / f.revenue.getD 0 * 100) ++ "%"]
      else [])
  else []

/-- The P/E line appended under the `price and eps > 0` guard
(fundamentals.py:59–61); a `None` or zero price is falsy. -/
def peLines (f : FundDict) (price : Option ℚ) : List String :=
  match price with
  | some p =>
      if p ≠ 0 ∧ 0 < f.eps.getD 0 then
        ["本益比(PE)：" ++ formatFixed 2 false (p / f.eps.getD 0)]
      else []
  | none => []

/-- The full line list built by `format_as_text` (fundamentals.py:38–61). -/
def format_lines (stock_id stock_name : String) (f : FundDict) (price : Option ℚ) :
    List String :=
  baseLines stock_id stock_name f ++ marginLines f ++ peLines f price

/-- Translation of `FundamentalFormatter.format_as_text`
(fundamentals.py:10–63). -/
def format_as_text (stock_id stock_name : String) (f : FundDict) (price : Option ℚ) : String :=
  pyJoin "\n" (format_lines stock_id stock_name f price)

/-- The margin entries of `calculate_ratios` under the
`revenue and revenue > 0` guard (fundamentals.py:84–88). -/
def marginRatios (f : FundDict) : List (String × ℚ) :=
  if f.revenue.getD 0 ≠ 0 ∧ 0 < f.revenue.getD 0 then
    (if f.operating_income.getD 0 ≠ 0 then
        [("operating_margin", f.operating_income.getD 0 / f.revenue.getD 0 * 100)]
      else []) ++
    (if f.net_income.getD 0 ≠ 0 then
        [("net_margin", f.net_income.getD 0 / f.revenue.getD 0 * 100)]
      else [])
  else []

/-- The P/E entry of `calculate_ratios` under the `price and eps and eps > 0`
guard (fundamentals.py:90–91). -/
def peRatios (f : FundDict) (price : Option ℚ) : List (String × ℚ) :=
  match price with
  | some p =>
      if p ≠ 0 ∧ f.eps.getD 0 ≠ 0 ∧ 0 < f.eps.getD 0 then
        [("pe_ratio", p / f.eps.getD 0)]
      else []
  | none => []

/-- Translation of `FundamentalFormatter.calculate_ratios`
(fundamentals.py:66–93); the result dict is a key/value list. -/
def calculate_ratios (f : FundDict) (price : Option ℚ) : List (String × ℚ) :=
  marginRatios f ++ peRatios f price

end FundamentalFormatter

/-- C8: the fundamental formatter defaults missing numeric fields to zero (a
record missing `eps` yields the literal `0.00` EPS line) and guards every
division by a strictly-positive-denominator test: margin lines appear only
when `revenue > 0`, the P/E line only when a truthy price is supplied and
`eps > 0`, `calculate_ratios` emits margin keys only when `revenue > 0`
(revenue zero leaves only possibly a `pe_ratio` key) and `pe_ratio` only when
a truthy price is supplied and `eps > 0`. -/
theorem C8_fundamental_division_guards :
    (∀ (stock_id stock_name : String) (f : FundDict) (price : Option ℚ), f.eps = none →
      "每股盈餘(EPS)：0.00元" ∈ FundamentalFormatter.format_lines stock_id stock_name f price)
    ∧ (∀ f : FundDict, ¬ 0 < f.revenue.getD 0 → FundamentalFormatter.marginLines f = [])
    ∧ (∀ (f : FundDict) (price : Option ℚ), FundamentalFormatter.peLines f price ≠ [] →
        ∃ p, price = some p ∧ p ≠ 0 ∧ 0 < f.eps.getD 0)
    ∧ (∀ (f : FundDict) (price : Option ℚ) (v : ℚ),
        ("operating_margin", v) ∈ FundamentalFormatter.calculate_ratios f price →
          0 < f.revenue.getD 0)
    ∧ (∀ (f : FundDict) (price : Option ℚ) (v : ℚ),
        ("net_margin", v) ∈ FundamentalFormatter.calculate_ratios f price →
          0 < f.revenue.getD 0)
    ∧ (∀ (f : FundDict) (price : Option ℚ), f.revenue.getD 0 = 0 →
        ∀ k v, (k, v) ∈ FundamentalFormatter.calculate_ratios f price → k = "pe_ratio")
    ∧ (∀ (f : FundDict) (price : Option ℚ) (v : ℚ),
        ("pe_ratio", v) ∈ FundamentalFormatter.calculate_ratios f price →
          ∃ p, price = some p ∧ p ≠ 0 ∧ 0 < f.eps.getD 0) := by
  have hmr : ∀ (f : FundDict) (k : String) (v : ℚ),
      (k, v) ∈ FundamentalFormatter.marginRatios f →
        (k = "operating_margin" ∨ k = "net_margin") ∧ 0 < f.revenue.getD 0 := by
    intro f k v h
    rw [FundamentalFormatter.marginRatios] at h
    by_cases hrev : f.revenue.getD 0 ≠ 0 ∧ 0 < f.revenue.getD 0
    · rw [if_pos hrev] at h
      refine ⟨?_, hrev.2⟩
      rcases List.mem_append.mp h with h1 | h2
      · left
        by_cases hoi : f.operating_income.getD 0 ≠ 0
        · rw [if_pos hoi] at h1
          exact congrArg Prod.fst (List.mem_singleton.mp h1)
        · rw [if_neg hoi] at h1
          exact absurd h1 (List.not_mem_nil _)
      · right
        by_cases hni : f.net_income.getD 0 ≠ 0
        · rw [if_pos hni] at h2
          exact congrArg Prod.fst (List.mem_singleton.mp h2)
        · rw [if_neg hni] at h2
          exact absurd h2 (List.not_mem_nil _)
    · rw [if_neg hrev] at h
      exact absurd h (List.not_mem_nil _)
  have hpr : ∀ (f : FundDict) (price : Option ℚ) (k : String) (v : ℚ),
      (k, v) ∈ FundamentalFormatter.peRatios f price →
        k = "pe_ratio" ∧ ∃ p, price = some p ∧ p ≠ 0 ∧ 0 < f.eps.getD 0 := by
    intro f price k v h
    cases price with
    | none => exact absurd h (List.not_mem_nil _)
    | some p =>
        rw [FundamentalFormatter.peRatios] at h
        by_cases hc : p ≠ 0 ∧ f.eps.getD 0 ≠ 0 ∧ 0 < f.eps.getD 0
        · rw [if_pos hc] at h
          exact ⟨congrArg Prod.fst (List.mem_singleton.mp h), p, rfl, hc.1, hc.2.2⟩
        · rw [if_neg hc] at h
          exact absurd h (List.not_mem_nil _)
  refine ⟨?_, ?_, ?_, ?_, ?_, ?_, ?_⟩
  · intro stock_id stock_name f price heps
    refine List.mem_append.mpr (Or.inl (List.mem_append.mpr (Or.inl ?_)))
    rw [FundamentalFormatter.baseLines, heps]
    have h9 : ("每股盈餘(EPS)：" ++ formatFixed 2 false ((none : Option ℚ).getD 0) ++ "元")
        = "每股盈餘(EPS)：0.00元" := by decide
    rw [h9]
    simp
  · intro f h
    rw [FundamentalFormatter.marginLines, if_neg h]
  · intro f price h
    cases price with
    | none => exact absurd rfl h
    | some p =>
        by_cases hc : p ≠ 0 ∧ 0 < f.eps.getD 0
        · exact ⟨p, rfl, hc⟩
        · rw [FundamentalFormatter.peLines, if_neg hc] at h
          exact absurd rfl h
  · intro f price v h
    rcases List.mem_append.mp h with h1 | h2
    · exact (hmr f _ v h1).2
    · rcases (hpr f price _ v h2).1 with h3
      exact absurd h3 (by decide)
  · intro f price v h
    rcases List.mem_append.mp h with h1 | h2
    · exact (hmr f _ v h1).2
    · rcases (hpr f price _ v h2).1 with h3
      exact absurd h3 (by decide)
  · intro f price hrev k v h
    rcases List.mem_append.mp h with h1 | h2
    · have := (hmr f k v h1).2
      rw [hrev] at this
      exact absurd this (by norm_num)
    · exact (hpr f price k v h2).1
  · intro f price v h
    rcases List.mem_append.mp h with h1 | h2
    · rcases (hmr f _ v h1).1 with h3 | h3 <;> exact absurd h3 (by decide)
    · exact (hpr f price _ v h2).2

/-- Witness for `C8_fundamental_division_guards` at concrete records: one
missing `eps`, one with zero revenue. -/
theorem C8_fundamental_witness :
    "每股盈餘(EPS)：0.00元" ∈ FundamentalFormatter.format_lines "2330" "台積電"
        (FundDict.mk (some 1000000) (some 200000) (some 150000) none (some "2023-12-31"))
        (some 500)
    ∧ FundamentalFormatter.marginLines
        (FundDict.mk (some 0) (some 5) (some 5) (some 1) none) = []
    ∧ (∀ k v, (k, v) ∈ FundamentalFormatter.calculate_ratios
        (FundDict.mk (some 0) (some 5) (some 5) (some 1) none) (some 100) → k = "pe_ratio") :=
  ⟨C8_fundamental_division_guards.1 "2330" "台積電" _ _ rfl,
   C8_fundamental_division_guards.2.1 _ (by decide),
   C8_fundamental_division_guards.2.2.2.2.2.1 _ _ (by decide)⟩

/-! ## TechnicalIndicators.format_as_text (data/indicators.py) -/

/-- The indicators mapping built per row by the sync controller
(sync.py:180–195): the row date plus the numeric fields extracted with
`row.get(..., 0)` defaults (`volume` through `int(...)`). -/
structure TechIndicators where
  date : String
  close : ℚ
  volume : ℤ
  price_change : ℚ
  ma5 : ℚ
  ma20 : ℚ
  ma60 : ℚ
  rsi : ℚ
  macd : ℚ
  macd_signal : ℚ
  k : ℚ
  d : ℚ
  bb_high : ℚ
  bb_low : ℚ
  deriving DecidableEq

/-- Translation of `TechnicalIndicators.format_as_text`
(indicators.py:104–136); the callers always build the mapping with every key
present, so it is modelled as a record. -/
def TechnicalIndicators.format_as_text (stock_id stock_name : String)
    (ind : TechIndicators) : String :=
  pyJoin "\n"
    ["股票代碼：" ++ stock_id,
     "公司名稱：" ++ stock_name,
     "日期：" ++ ind.date,
     "收盤價：" ++ formatFixed 2 false ind.close ++ "元",
     "漲跌幅：" ++ formatFixed 2 true ind.price_change ++ "%",
     "成交量：" ++ commaFmt ind.volume ++ "張",
     "",
     "技術指標：",
     "- MA5：" ++ formatFixed 2 false ind.ma5,
     "- MA20：" ++ formatFixed 2 false ind.ma20,
     "- MA60：" ++ formatFixed 2 false ind.ma60,
     "- RSI(14)：" ++ formatFixed 2 false ind.rsi,
     "- MACD：" ++ formatFixed 4 false ind.macd,
     "- MACD訊號：" ++ formatFixed 4 false ind.macd_signal,
     "- KD指標：K=" ++ formatFixed 2 false ind.k ++ ", D=" ++ formatFixed 2 false ind.d,
     "- 布林通道：上軌" ++ formatFixed 2 false ind.bb_high ++ ", 下軌" ++
       formatFixed 2 false ind.bb_low]

/-! ## Dynamic Python values at the fundamentals boundary

`get_fundamentals` returns a Python *list* of dicts while its caller in
`sync.py` treats the value as a dict; the mismatch is a dynamic type error,
so this boundary is modelled with a small dynamic value type carrying
Python's attribute/truthiness semantics. -/

/-- A dynamic Python value: string, number, list or dict. -/
inductive PyVal where
  | str (s : String)
  | num (q : ℚ)
  | list (l : List PyVal)
  | dict (d : List (String × PyVal))

/-- Python truthiness: empty strings, zero, and empty containers are falsy. -/
def PyVal.truthy : PyVal → Bool
  | PyVal.str s => s ≠ ""
  | PyVal.num q => q ≠ 0
  | PyVal.list l => !l.isEmpty
  | PyVal.dict d => !d.isEmpty

/-- The method call `v.get(key, default)`: defined on dicts; on a list (or
any non-dict value) Python raises `AttributeError`. -/
def PyVal.get (v : PyVal) (key : String) (default : PyVal) : Except String PyVal :=
  match v with
  | PyVal.dict d => Except.ok ((List.lookup key d).getD default)
  | PyVal.list _ => Except.error "AttributeError: list object has no attribute get"
  | PyVal.str _ => Except.error "AttributeError: str object has no attribute get"
  | PyVal.num _ => Except.error "AttributeError: number object has no attribute get"

/-- The string content of a dynamic value (`""` on non-strings). -/
def pyStr : PyVal → String
  | PyVal.str s => s
  | _ => ""

/-- The numeric content of a dynamic value. -/
def pyNum? : PyVal → Option ℚ
  | PyVal.num q => some q
  | _ => none

/-- The string content of a dynamic value, when it is a string. -/
def pyStr? : PyVal → Option String
  | PyVal.str s => some s
  | _ => none

/-- View a dynamic dict as the typed record the fundamental formatter
reads. -/
def fundDictOfPy (d : List (String × PyVal)) : FundDict :=
  { revenue := (List.lookup "revenue" d).bind pyNum?,
    operating_income := (List.lookup "operating_income" d).bind pyNum?,
    net_income := (List.lookup "net_income" d).bind pyNum?,
    eps := (List.lookup "eps" d).bind pyNum?,
    date := (List.lookup "date" d).bind pyStr? }

/-- The dynamic entry into `FundamentalFormatter.format_as_text`
(fundamentals.py:10–35): its first operation reads keys with `.get`, so a
non-dict argument raises `AttributeError`. -/
def formatAsTextDyn (stock_id stock_name : String) (v : PyVal) (price : Option ℚ) :
    Except String String :=
  match v with
  | PyVal.dict d =>
      Except.ok (FundamentalFormatter.format_as_text stock_id stock_name (fundDictOfPy d) price)
  | PyVal.list _ => Except.error "AttributeError: list object has no attribute get"
  | _ => Except.error "AttributeError"

/-! ## TaiwanStockCollector.get_fundamentals (data/stock_collector.py) -/

/-- One row of the financial-statements response read by `get_fundamentals`
(stock_collector.py:131–139); missing response columns default through
`row.get(..., 0)` / `row.get('date', '')`. -/
structure FundStatementRow where
  date : Option String
  revenue : Option ℚ
  operating_income : Option ℚ
  net_income : Option ℚ
  eps : Option ℚ
  deriving DecidableEq

/-- The dict built per response row (stock_collector.py:132–139). -/
def fundRowToDict (stock_id : String) (r : FundStatementRow) : PyVal :=
  PyVal.dict
    [("stock_id", PyVal.str stock_id),
     ("date", PyVal.str (r.date.getD "")),
     ("revenue", PyVal.num (r.revenue.getD 0)),
     ("operating_income", PyVal.num (r.operating_income.getD 0)),
     ("net_income", PyVal.num (r.net_income.getD 0)),
     ("eps", PyVal.num (r.eps.getD 0))]

/-- Translation of `TaiwanStockCollector.get_fundamentals`
(stock_collector.py:89–146): on a successful non-empty response, sort rows
by date descending, keep the most recent `num_quarters`, and return the list
of metric dicts; on any request failure or an empty/non-200 response return
the empty list (the `except` prints and falls through to `return []`). -/
def get_fundamentals (stock_id : String) (num_quarters : Nat)
    (response : Except String (List FundStatementRow)) : PyVal :=
  match response with
  | Except.error _ => PyVal.list []
  | Except.ok rows =>
      if rows.isEmpty then PyVal.list []
      else
        PyVal.list (((rows.insertionSort fun a b => b.date.getD "" ≤ a.date.getD "").take
          num_quarters).map (fundRowToDict stock_id))

/-! ## Incremental sync controller (sync.py) -/

/-- The body of `check_data_exists` (sync.py:76–91) applied to the outcome of
the store search call: a raised search (`Except.error`, caught by the
`except` clause) yields `False`; otherwise presence is a nonempty result. -/
def check_data_exists_outcome (probe : Except String (List (SearchResult μ))) : Bool :=
  match probe with
  | Except.error _ => false
  | Except.ok results => 0 < results.length

/-- Translation of `check_data_exists` (sync.py:58–91): a degenerate search
with a zero probe vector of the collection dimension, `limit = 1`, the stock
and data-type equality filters, and a custom `date` condition.  In the pure
store model the search itself cannot raise, so the probe outcome is always
`Except.ok`. -/
def check_data_exists (scoreOf : List ℚ → Point μ → ℚ) (vector_size : Nat)
    (store : Store μ) (stock_id date data_type : String) : Bool :=
  check_data_exists_outcome (Except.ok (StockVectorDB.search scoreOf store
    (List.replicate vector_size 0) 1 (some stock_id) (some data_type)
    (some [("date", date)])))

/-- The per-row indicators mapping (sync.py:180–195) as a dynamic dict, the
form in which it is stored as payload metadata. -/
def techIndicatorsPy (ind : TechIndicators) : PyVal :=
  PyVal.dict
    [("date", PyVal.str ind.date), ("close", PyVal.num ind.close),
     ("volume", PyVal.num (ind.volume : ℚ)), ("price_change", PyVal.num ind.price_change),
     ("ma5", PyVal.num ind.ma5), ("ma20", PyVal.num ind.ma20), ("ma60", PyVal.num ind.ma60),
     ("rsi", PyVal.num ind.rsi), ("macd", PyVal.num ind.macd),
     ("macd_signal", PyVal.num ind.macd_signal), ("k", PyVal.num ind.k),
     ("d", PyVal.num ind.d), ("bb_high", PyVal.num ind.bb_high),
     ("bb_low", PyVal.num ind.bb_low)]

/-- The running state of one sync invocation: the store plus the
`(inserted, skipped)` counters. -/
structure SyncState (μ : Type) where
  store : Store μ
  inserted : Nat
  skipped : Nat

/-- The insert path of the per-day loop (sync.py:179–217): build the
indicators mapping, format it, embed the text, upsert the point, and
increment `inserted`. -/
def insertTechRow (encode : String → List ℚ) (stock_id stock_name : String)
    (st : SyncState PyVal) (row : TechIndicators) : SyncState PyVal :=
  let text := TechnicalIndicators.format_as_text stock_id stock_name row
  let vector := encode text
  let res := insert_stock_data st.store text vector stock_id stock_name row.date
    "technical" (some (techIndicatorsPy row))
  { st with store := res.2, inserted := st.inserted + 1 }

/-- One iteration of the per-day loop (sync.py:170–221), split on the probe
outcome fed to the `check_data_exists` body: a hit increments `skipped` and
leaves the store untouched; a miss runs the insert path. -/
def syncTechRowCore (encode : String → List ℚ) (stock_id stock_name : String)
    (st : SyncState PyVal) (row : TechIndicators)
    (probe : Except String (List (SearchResult PyVal))) : SyncState PyVal :=
  if check_data_exists_outcome probe then
    { st with skipped := st.skipped + 1 }
  else insertTechRow encode stock_id stock_name st row

/-- One iteration of the per-day loop with the probe actually issued by
`check_data_exists` against the current store. -/
def syncTechRow (scoreOf : List ℚ → Point PyVal → ℚ) (vector_size : Nat)
    (encode : String → List ℚ) (stock_id stock_name : String)
    (st : SyncState PyVal) (row : TechIndicators) : SyncState PyVal :=
  syncTechRowCore encode stock_id stock_name st row
    (Except.ok (StockVectorDB.search scoreOf st.store (List.replicate vector_size 0) 1
      (some stock_id) (some "technical") (some [("date", row.date)])))

/-- The chronological per-day loop over the fetched window (sync.py:170). -/
def syncTechRows (scoreOf : List ℚ → Point PyVal → ℚ) (vector_size : Nat)
    (encode : String → List ℚ) (stock_id stock_name : String)
    (st : SyncState PyVal) (rows : List TechIndicators) : SyncState PyVal :=
  rows.foldl (syncTechRow scoreOf vector_size encode stock_id stock_name) st

/-- Semantic presence of a key triple in the store: some stored point
carries exactly this stock id, date and data type in its payload. -/
def keyExists (store : Store μ) (stock_id date data_type : String) : Prop :=
  ∃ p ∈ store, p.payload.stock_id = stock_id ∧ p.payload.date = date ∧
    p.payload.data_type = data_type

instance keyExists.instDecidable {μ : Type} (store : Store μ)
    (stock_id date data_type : String) : Decidable (keyExists store stock_id date data_type) :=
  inferInstanceAs (Decidable (∃ p ∈ store, p.payload.stock_id = stock_id ∧
    p.payload.date = date ∧ p.payload.data_type = data_type))

/-- The body of the fundamentals `try` block (sync.py:226–255), with
`fundamentals` the value returned by `get_fundamentals` and `latest_close`
the last close of the price window.  `Except.error` models an exception
raised inside the block: `fundamentals.get(...)` on a non-dict value raises
`AttributeError` before anything else happens. -/
def syncFundamentalsBody (scoreOf : List ℚ → Point PyVal → ℚ) (vector_size : Nat)
    (encode : String → List ℚ) (stock_id stock_name : String)
    (fundamentals : PyVal) (latest_close : ℚ) (st : SyncState PyVal) :
    Except String (SyncState PyVal) :=
  if fundamentals.truthy then
    match fundamentals.get "date" (PyVal.str "") with
    | Except.error e => Except.error e
    | Except.ok fdv =>
        let fund_date := pyStr fdv
        if !(check_data_exists scoreOf vector_size st.store stock_id fund_date "fundamental")
        then
          match formatAsTextDyn stock_id stock_name fundamentals (some latest_close) with
          | Except.error e => Except.error e
          | Except.ok fund_text =>
              let fund_vector := encode fund_text
              let res := insert_stock_data st.store fund_text fund_vector stock_id stock_name
                fund_date "fundamental" (some fundamentals)
              Except.ok { st with store := res.2, inserted := st.inserted + 1 }
        else Except.ok { st with skipped := st.skipped + 1 }
  else Except.ok st

/-- The per-stock fundamentals step (sync.py:224–258): skipped entirely under
`--skip-fundamentals`; otherwise any exception raised in the block is caught,
logged as a fundamentals failure, and the state is left unchanged. -/
def syncFundamentalsStep (scoreOf : List ℚ → Point PyVal → ℚ) (vector_size : Nat)
    (encode : String → List ℚ) (stock_id stock_name : String)
    (skip_fundamentals : Bool) (fundamentals : PyVal) (latest_close : ℚ)
    (st : SyncState PyVal) : SyncState PyVal :=
  if skip_fundamentals then st
  else
    match syncFundamentalsBody scoreOf vector_size encode stock_id stock_name fundamentals
        latest_close st with
    | Except.ok st2 => st2
    | Except.error _ => st

/-! ## CLI exit path (sync.py, `sync_stock_data` top level and `main`) -/

/-- Control skeleton of `sync_stock_data` (sync.py:94–274): component
initialization — collector, formatter, indicators, vector-store connection,
embedding model, collection creation (lines 121–133) — runs inside a
try/except whose handler logs the failure and returns `(0, 0)` (lines
134–136); on success the per-stock loop runs to completion and returns its
totals. -/
def sync_stock_data_run {Γ : Type} (init : Except String Γ) (runLoop : Γ → Nat × Nat) :
    Nat × Nat :=
  match init with
  | Except.error _ => (0, 0)
  | Except.ok c => runLoop c

/-- The try/except of `main` (sync.py:316–337): exit code 0 when
`sync_stock_data` returns, 1 when it raises. -/
def mainCatch (outcome : Except String (Nat × Nat)) : Nat :=
  match outcome with
  | Except.ok _ => 0
  | Except.error _ => 1

/-- Translation of `main` (sync.py:277–337): `sync_stock_data` is a normal
call — in particular an initialization failure has already been converted
into a `(0, 0)` return inside it, so `main` observes a normal return. -/
def main_exit_code {Γ : Type} (init : Except String Γ) (runLoop : Γ → Nat × Nat) : Nat :=
  mainCatch (Except.ok (sync_stock_data_run init runLoop))

/-- The existence probe reports a hit exactly when the key triple is present
in the store (for nonempty stock id and data type, which every sync call
supplies). -/
theorem clientSearch_limit_one_pos_iff {μ : Type} (score : Point μ → ℚ) (store : Store μ)
    (conds : List FieldCondition) :
    0 < (clientSearch score store 1 (some conds)).length
      ↔ ∃ p ∈ store, matchesFilter conds p = true := by
  simp only [clientSearch, List.length_take]
  rw [(List.perm_insertionSort (fun a b : ScoredPoint μ => b.score ≤ a.score) _).length_eq]
  rw [List.length_map, ← List.countP_eq_length_filter]
  constructor
  · intro h
    exact List.countP_pos_iff.mp (Nat.lt_min.mp h).2
  · intro h
    exact Nat.lt_min.mpr ⟨Nat.one_pos, List.countP_pos_iff.mpr h⟩

theorem check_data_exists_iff {μ : Type} (scoreOf : List ℚ → Point μ → ℚ)
    (vector_size : Nat) (store : Store μ) (stock_id date data_type : String)
    (hsid : stock_id ≠ "") (hdt : data_type ≠ "") :
    check_data_exists scoreOf vector_size store stock_id date data_type = true
      ↔ keyExists store stock_id date data_type := by
  have hbf : buildFilters (some stock_id) (some data_type) (some [("date", date)])
      = [FieldCondition.mk "stock_id" stock_id, FieldCondition.mk "data_type" data_type,
         FieldCondition.mk "date" date] := by
    simp [buildFilters, strTruthy, hsid, hdt]
  have hmatch : ∀ p : Point μ,
      (matchesFilter [FieldCondition.mk "stock_id" stock_id,
        FieldCondition.mk "data_type" data_type, FieldCondition.mk "date" date] p = true)
      ↔ (p.payload.stock_id = stock_id ∧ p.payload.date = date ∧
          p.payload.data_type = data_type) := by
    intro p
    simp [matchesFilter, Payload.getStr]
    tauto
  rw [check_data_exists, check_data_exists_outcome]
  simp only [StockVectorDB.search, hbf, List.length_map, decide_eq_true_eq]
  rw [show queryFilterOf [FieldCondition.mk "stock_id" stock_id,
      FieldCondition.mk "data_type" data_type, FieldCondition.mk "date" date]
    = some [FieldCondition.mk "stock_id" stock_id, FieldCondition.mk "data_type" data_type,
        FieldCondition.mk "date" date] from rfl]
  rw [clientSearch_limit_one_pos_iff, keyExists]
  exact exists_congr fun p => and_congr_right fun _ => hmatch p

/-- C1: during a sync run, a technical row whose key triple is already stored
is skipped — the skip counter increments and the store is untouched (no
write); a row whose triple is absent takes the format/embed/upsert path and
increments the insert counter; consequently re-running the loop over a
window whose rows are all present yields zero inserts and one skip per
row. -/
theorem C1_sync_skip_or_insert (scoreOf : List ℚ → Point PyVal → ℚ) (vector_size : Nat)
    (encode : String → List ℚ) (stock_id stock_name : String) (hsid : stock_id ≠ "") :
    (∀ (st : SyncState PyVal) (row : TechIndicators),
        keyExists st.store stock_id row.date "technical" →
          syncTechRow scoreOf vector_size encode stock_id stock_name st row
            = { st with skipped := st.skipped + 1 })
    ∧ (∀ (st : SyncState PyVal) (row : TechIndicators),
        ¬ keyExists st.store stock_id row.date "technical" →
          syncTechRow scoreOf vector_size encode stock_id stock_name st row
            = { st with
                store := (insert_stock_data st.store
                    (TechnicalIndicators.format_as_text stock_id stock_name row)
                    (encode (TechnicalIndicators.format_as_text stock_id stock_name row))
                    stock_id stock_name row.date "technical"
                    (some (techIndicatorsPy row))).2,
                inserted := st.inserted + 1 })
    ∧ (∀ (st : SyncState PyVal) (rows : List TechIndicators),
        (∀ row ∈ rows, keyExists st.store stock_id row.date "technical") →
          syncTechRows scoreOf vector_size encode stock_id stock_name st rows
            = { st with skipped := st.skipped + rows.length }) := by
  have hskip : ∀ (st : SyncState PyVal) (row : TechIndicators),
      keyExists st.store stock_id row.date "technical" →
        syncTechRow scoreOf vector_size encode stock_id stock_name st row
          = { st with skipped := st.skipped + 1 } := by
    intro st row hk
    have hc : check_data_exists scoreOf vector_size st.store stock_id row.date "technical"
        = true :=
      (check_data_exists_iff scoreOf vector_size st.store stock_id row.date "technical"
        hsid (by decide)).mpr hk
    rw [check_data_exists] at hc
    rw [syncTechRow, syncTechRowCore, hc, if_pos rfl]
  refine ⟨hskip, ?_, ?_⟩
  · intro st row hk
    have hc : check_data_exists scoreOf vector_size st.store stock_id row.date "technical"
        = false := by
      rw [← Bool.not_eq_true]
      intro hcontra
      exact hk ((check_data_exists_iff scoreOf vector_size st.store stock_id row.date
        "technical" hsid (by decide)).mp hcontra)
    rw [check_data_exists] at hc
    rw [syncTechRow, syncTechRowCore, hc]
    rw [if_neg (by simp)]
    rfl
  · intro st rows
    induction rows generalizing st with
    | nil =>
        intro _
        show st = { st with skipped := st.skipped + Nat.zero }
        rfl
    | cons r rs ih =>
        intro h
        have h1 := hskip st r (h r (List.mem_cons_self r rs))
        show syncTechRows scoreOf vector_size encode stock_id stock_name
            (syncTechRow scoreOf vector_size encode stock_id stock_name st r) rs = _
        rw [h1]
        rw [ih { st with skipped := st.skipped + 1 }
          (fun row hr => h row (List.mem_cons_of_mem r hr))]
        show ({ st with skipped := st.skipped + 1 + rs.length } : SyncState PyVal)
          = { st with skipped := st.skipped + (rs.length + 1) }
        congr 1
        omega

/-- A trivial scoring oracle for concrete instances. -/
def demoScore : List ℚ → Point PyVal → ℚ := fun _ _ => 0

/-- A trivial embedding oracle for concrete instances. -/
def demoEncode : String → List ℚ := fun _ => [0, 0, 0]

/-- A stored technical point for the key ("2330", "2024-01-02", technical). -/
def demoPoint : Point PyVal :=
  Point.mk "pid0" [0, 0, 0]
    (Payload.mk "stored text" "2330" "台積電" "2024-01-02" "technical" none)

/-- A sync state whose store already holds `demoPoint`. -/
def demoState : SyncState PyVal := SyncState.mk [demoPoint] 0 0

/-- A technical row dated 2024-01-02. -/
def demoRow : TechIndicators :=
  TechIndicators.mk "2024-01-02" 500 1000 1 1 1 1 1 1 1 1 1 1 1

/-- Witness for `C1_sync_skip_or_insert`: with the key already stored the row
is skipped (also across a two-row window), and against an empty store the
insert path is taken. -/
theorem C1_sync_witness :
    syncTechRow demoScore 3 demoEncode "2330" "台積電" demoState demoRow
      = { demoState with skipped := demoState.skipped + 1 }
    ∧ syncTechRows demoScore 3 demoEncode "2330" "台積電" demoState [demoRow, demoRow]
      = { demoState with skipped := demoState.skipped + 2 }
    ∧ syncTechRow demoScore 3 demoEncode "2330" "台積電" (SyncState.mk [] 0 0) demoRow
      = SyncState.mk
          (insert_stock_data ([] : Store PyVal)
              (TechnicalIndicators.format_as_text "2330" "台積電" demoRow)
              (demoEncode (TechnicalIndicators.format_as_text "2330" "台積電" demoRow))
              "2330" "台積電" demoRow.date "technical"
              (some (techIndicatorsPy demoRow))).2
          (0 + 1) 0 :=
  ⟨(C1_sync_skip_or_insert demoScore 3 demoEncode "2330" "台積電" (by decide)).1
      demoState demoRow (by decide),
   (C1_sync_skip_or_insert demoScore 3 demoEncode "2330" "台積電" (by decide)).2.2
      demoState [demoRow, demoRow] (by decide),
   (C1_sync_skip_or_insert demoScore 3 demoEncode "2330" "台積電" (by decide)).2.1
      (SyncState.mk [] 0 0) demoRow (by decide)⟩

/-- C10: when the existence probe's store search raises, `check_data_exists`
returns `False`, so the sync step treats the row as absent and takes the
insert path — never a skip, an abort, or a lost write; and because the write
is an upsert keyed by the deterministic fingerprint, the store afterwards
holds exactly one point under that key, so a redundant write overwrites
rather than duplicates. -/
theorem C10_probe_failure_inserts :
    (∀ e : String, check_data_exists_outcome (μ := PyVal) (Except.error e) = false)
    ∧ (∀ (encode : String → List ℚ) (stock_id stock_name : String) (st : SyncState PyVal)
        (row : TechIndicators) (e : String),
        syncTechRowCore encode stock_id stock_name st row (Except.error e)
          = insertTechRow encode stock_id stock_name st row)
    ∧ (∀ {μ : Type} (store : Store μ) (text : String) (vector : List ℚ)
        (stock_id stock_name date data_type : String) (metadata : Option μ),
        List.countP (fun p => p.id == point_id_of stock_id date data_type)
          (insert_stock_data store text vector stock_id stock_name date data_type
            metadata).2 = 1) := by
  refine ⟨fun _ => rfl, fun _ _ _ _ _ _ => rfl, ?_⟩
  intro μ store text vector stock_id stock_name date data_type metadata
  show List.countP _ (upsertPoint store _) = 1
  rw [upsertPoint, List.countP_cons]
  have hz : List.countP (fun p => p.id == point_id_of stock_id date data_type)
      (store.filter fun q =>
        q.id ≠ (Point.mk (point_id_of stock_id date data_type) vector
          (Payload.mk text stock_id stock_name date data_type metadata)).id) = 0 := by
    rw [List.countP_eq_zero]
    intro a ha
    have hne := (List.mem_filter.mp ha).2
    simp only [decide_eq_true_eq] at hne
    simpa using hne
  rw [hz]
  simp

/-! ## Claim C4: the fundamentals step (code bug) -/

/-- A concrete financial-statements row. -/
def demoFundRow : FundStatementRow :=
  FundStatementRow.mk (some "2023-12-31") (some 1000000) (some 200000) (some 150000) (some 10)

/-- C4 (code bug): `get_fundamentals` returns a Python *list* of dicts, but
the sync controller calls `.get('date', '')` on that value (sync.py:229),
which raises `AttributeError` for any non-empty result; the surrounding
`except` catches it as a fundamentals failure, so the step never probes,
never inserts, never skips — the state is returned unchanged, contradicting
the claimed insert-if-absent behaviour. -/
theorem C4_fundamentals_attribute_error :
    get_fundamentals "2330" 4 (Except.ok [demoFundRow])
      = PyVal.list [fundRowToDict "2330" demoFundRow]
    ∧ syncFundamentalsBody demoScore 3 demoEncode "2330" "台積電"
        (get_fundamentals "2330" 4 (Except.ok [demoFundRow])) 500 (SyncState.mk [] 0 0)
      = Except.error "AttributeError: list object has no attribute get"
    ∧ syncFundamentalsStep demoScore 3 demoEncode "2330" "台積電" false
        (get_fundamentals "2330" 4 (Except.ok [demoFundRow])) 500 (SyncState.mk [] 0 0)
      = SyncState.mk [] 0 0 :=
  ⟨rfl, rfl, rfl⟩

/-! ## Claim C5: exit status of the sync tool -/

/-- C5 counterexample: a startup failure (the vector-store connection raises
during component initialization) is caught inside `sync_stock_data`, which
returns `(0, 0)`, so the process exits with status 0 — not the claimed
non-zero status. -/
theorem C5_counterexample :
    main_exit_code (Except.error "ConnectionError: Qdrant unreachable")
      (fun _ : Unit => (5, 7)) = 0 := rfl

/-- C5 (amended): a startup failure is caught inside `sync_stock_data`,
logged, and converted into a `(0, 0)` return, after which `main` exits with
status 0; exit status 1 would require `sync_stock_data` itself to raise,
which no initialization failure does — so exit status 0 does not indicate
that startup succeeded. -/
theorem C5_amended_startup_exit_zero (Γ : Type) (e : String) (runLoop : Γ → Nat × Nat) :
    sync_stock_data_run (Except.error e : Except String Γ) runLoop = (0, 0)
    ∧ main_exit_code (Except.error e : Except String Γ) runLoop = 0
    ∧ ∀ init : Except String Γ, main_exit_code init runLoop = 0 :=
  ⟨rfl, rfl, fun init => by cases init <;> rfl⟩

end TwStock
